import Mathlib

/-!
Shallow embedding of the mikanos-shakyo kernel sources.

The definitions below transcribe the system-call layer (`kernel/syscall.cpp`),
the interrupt-descriptor helpers (`kernel/interrupt.hpp`), the page-map entry
accessors (`kernel/paging.hpp`) and the timer registration performed by
`kernel/main.cpp`.  Machine integers are modelled as `Nat`, reduced with an
explicit `% 0x10000000000000000` (2^64) or `% 0x100000000` (2^32) where C++
unsigned wrap-around can occur; C `int` values obtained by narrowing a 64-bit
argument are modelled through an explicit two's-complement cast.  Kernel
components whose sources are not part of the repository snapshot
(`terminal.cpp`, `fat.cpp`, the timer manager, `logger.hpp`, `keyboard.hpp`,
`task.hpp`) enter the model either as explicit function parameters or as
constants documented at their definition site.
-/

namespace MikanOS

/-- Two's-complement reading of the low 32 bits of a machine word: the C++
narrowing conversion `static_cast<int>(x)` applied to a `uint64_t` syscall
argument, as in `syscall::ReadFile`, `syscall::MapFile` and
`syscall::CreateTimer`. -/
def toInt32 (n : Nat) : Int :=
  if n % 0x100000000 < 0x80000000 then ((n % 0x100000000 : Nat) : Int)
  else ((n % 0x100000000 : Nat) : Int) - 0x100000000

/-- `syscall::Result` (syscall.cpp:21-24): primary value and secondary error
code of every system call. -/
structure Result where
  value : Nat
  error : Nat
deriving DecidableEq, Repr

/- errno constants from `<cerrno>` (external to the repository; standard
newlib/Linux values). -/

def EPERM : Nat := 1

def ENOENT : Nat := 2

def E2BIG : Nat := 7

def EBADF : Nat := 9

def EFAULT : Nat := 14

def EISDIR : Nat := 21

def EINVAL : Nat := 22

def ENOSPC : Nat := 28

/-- `O_CREAT` from `<fcntl.h>` (external to the repository; newlib value). -/
def O_CREAT : Nat := 0x200

/- Log levels accepted by `syscall::LogString`.  `logger.hpp` is not part of
the repository snapshot; the four admissible levels are taken from its
upstream definition.  Only their membership test matters to the syscall. -/

def kError : Nat := 3

def kWarn : Nat := 4

def kInfo : Nat := 6

def kDebug : Nat := 7

/-- `syscall::LogString` (syscall.cpp:35-46).  The kernel log is modelled as
the list of `(level, string)` pairs emitted so far, newest first. -/
def LogString (arg1 : Nat) (s : String) (log : List (Nat × String)) :
    Result × List (Nat × String) :=
  if arg1 ≠ kError ∧ arg1 ≠ kWarn ∧ arg1 ≠ kInfo ∧ arg1 ≠ kDebug then
    (⟨0, EPERM⟩, log)
  else if s.length > 1024 then
    (⟨0, E2BIG⟩, log)
  else
    (⟨s.length, 0⟩, (arg1, s) :: log)

/-- One open-file slot of a task: the state of a `fat::FileDescriptor`
(size and read offset; `fat.cpp` is not in the snapshot, so reads are
abstracted by a parameter where needed).  `none` models a null
`unique_ptr` slot of `Task::Files()`. -/
structure FileDesc where
  size : Nat
  offset : Nat
deriving DecidableEq, Repr

/-- `FileMapping` as pushed by `syscall::MapFile` (syscall.cpp:459):
descriptor and the virtual address range of the mapping. -/
structure FileMapping where
  fd : Int
  vaddrBegin : Nat
  vaddrEnd : Nat
deriving DecidableEq, Repr

/-- The per-task state touched by the file and memory syscalls: the open-file
table, the registered file mappings, the end of the file-mapping region and
the end of the demand-paging region. -/
structure Task where
  files : List (Option FileDesc)
  fileMaps : List FileMapping
  fileMapEnd : Nat
  dpagingEnd : Nat
deriving DecidableEq, Repr

/-- `syscall::PutString` (syscall.cpp:52-71).  `fd` is the raw `uint64_t`
argument (the C++ local `fd` is unsigned, so its `fd < 0` test is vacuously
false).  Terminal output (`FileDescriptor::Write`, external) is modelled by
recording `(fd, s, len)` on a write log and returning `len`. -/
def PutString (fd : Nat) (s : String) (len : Nat) (task : Task)
    (writes : List (Nat × String × Nat)) :
    Result × Task × List (Nat × String × Nat) :=
  if len > 1024 then
    (⟨0, E2BIG⟩, task, writes)
  else if task.files.length ≤ fd ∨ task.files.getD fd none = none then
    (⟨0, EBADF⟩, task, writes)
  else
    (⟨len, 0⟩, task, (fd, s, len) :: writes)

/-- The `Error::Code` causes relevant to `CloseLayer` (terminal.cpp, external
to the snapshot): `syscall::CloseWindow` only inspects whether the cause is
`kNoSuchEntry`. -/
inductive ErrCause where
  | success
  | noSuchEntry
  | other
deriving DecidableEq, Repr

/-- `syscall::CloseWindow` (syscall.cpp:221-228).  `CloseLayer` itself lives
in `terminal.cpp` outside the snapshot; its error cause is passed in.  Note
that the source returns `{EBADF, 0}` on `kNoSuchEntry`: the failure lands in
the primary value slot while the secondary error code stays 0. -/
def CloseWindow (closeLayerCause : ErrCause) : Result :=
  if closeLayerCause = ErrCause.noSuchEntry then ⟨EBADF, 0⟩ else ⟨0, 0⟩

/- Keyboard modifier masks (keyboard.hpp, not in the snapshot; upstream
values).  Only their disjunction is used by `syscall::ReadEvent`. -/

def kLControlBitMask : Nat := 0b00000001

def kRControlBitMask : Nat := 0b00010000

/-- The kernel-side `Message` variants consumed by `syscall::ReadEvent` and
`KernelMainNewStack` (message.hpp, fields as used in the snapshot). -/
inductive Message where
  | keyPush (modifier keycode ascii : Nat) (press : Bool)
  | mouseMove (x y dx dy : Int) (buttons : Nat)
  | mouseButton (x y press button : Int)
  | timerTimeout (timeout : Nat) (value : Int)
  | windowClose
  | interruptXHCI
  | layer
  | layerFinish
deriving DecidableEq, Repr

/-- The application-side `AppEvent` variants produced by `syscall::ReadEvent`
(app_event.hpp, fields as written in syscall.cpp). -/
inductive AppEvent where
  | quit
  | keyPush (modifier keycode ascii : Nat) (press : Bool)
  | mouseMove (x y dx dy : Int) (buttons : Nat)
  | mouseButton (x y press button : Int)
  | timerTimeout (timeout : Nat) (value : Int)
deriving DecidableEq, Repr

/-- The body of one iteration of the `ReadEvent` message loop
(syscall.cpp:260-310): which app event, if any, a received kernel message
produces.  `none` means the message is consumed without filling an event slot
(a timer whose value is not negative, or the logging default branch). -/
def convertMessage : Message → Option AppEvent
  | Message.keyPush modifier keycode ascii press =>
    if keycode = 20 ∧ modifier &&& (kLControlBitMask ||| kRControlBitMask) ≠ 0 then
      some AppEvent.quit
    else
      some (AppEvent.keyPush modifier keycode ascii press)
  | Message.mouseMove x y dx dy buttons => some (AppEvent.mouseMove x y dx dy buttons)
  | Message.mouseButton x y press button => some (AppEvent.mouseButton x y press button)
  | Message.timerTimeout timeout value =>
    if value < 0 then some (AppEvent.timerTimeout timeout (-value)) else none
  | Message.windowClose => some AppEvent.quit
  | Message.interruptXHCI => none
  | Message.layer => none
  | Message.layerFinish => none

/-- The message-draining loop of `syscall::ReadEvent` (syscall.cpp:246-311):
`i` counts filled event slots, `len` is the buffer capacity.  The source
sleeps when the queue is empty and no slot has been filled yet; the model
returns with `i = 0` at that point, since scheduling is outside this
embedding. -/
def readEventLoop (len : Nat) : List Message → Nat → List AppEvent →
    Nat × List AppEvent × List Message
  | [], i, evs => (i, evs, [])
  | m :: rest, i, evs =>
    if i < len then
      match convertMessage m with
      | some e => readEventLoop len rest (i + 1) (evs ++ [e])
      | none => readEventLoop len rest i evs
    else (i, evs, m :: rest)

/-- `syscall::ReadEvent` (syscall.cpp:232-314): the pointer-range validation
against the kernel half of the address space, then the draining loop.
Returns the syscall result, the events written into the application buffer,
and the remaining message queue of the task. -/
def ReadEvent (arg1 len : Nat) (queue : List Message) :
    Result × List AppEvent × List Message :=
  if arg1 < 0x8000000000000000 then
    (⟨0, EFAULT⟩, [], queue)
  else
    match readEventLoop len queue 0 [] with
    | (i, evs, rest) => (⟨i, 0⟩, evs, rest)

/-- `Timer` (timer.hpp, as constructed in syscall.cpp:337 and main.cpp:157):
absolute timeout tick, signed value, owning task id. -/
structure Timer where
  timeout : Nat
  value : Int
  taskId : Nat
deriving DecidableEq, Repr

/-- `kTimerFreq` (timer.hpp, not in the snapshot; upstream value 100 Hz).
None of the proved properties depends on the specific value. -/
def kTimerFreq : Nat := 100

/-- The timeout computation of `syscall::CreateTimer` (syscall.cpp:328-332):
`arg3 * kTimerFreq / 1000` in 64-bit unsigned arithmetic, made relative to
the current tick when bit 0 of the mode argument is set. -/
def createTimerTimeout (arg1 arg3 tick : Nat) : Nat :=
  let t0 := arg3 * kTimerFreq % 0x10000000000000000 / 1000
  if arg1 % 0x100000000 % 2 = 1 then (t0 + tick) % 0x10000000000000000 else t0

/-- `syscall::CreateTimer` (syscall.cpp:317-341).  Registration in the timer
manager (timer.hpp, external) is modelled as appending the constructed
`Timer` to the list of registered timers; note the negated value. -/
def CreateTimer (arg1 arg2 arg3 tick taskId : Nat) (timers : List Timer) :
    Result × List Timer :=
  let timerValue := toInt32 arg2
  if timerValue ≤ 0 then
    (⟨0, EINVAL⟩, timers)
  else
    let timeout := createTimerTimeout arg1 arg3 tick
    (⟨timeout * 1000 % 0x10000000000000000 / kTimerFreq, 0⟩,
      timers ++ [⟨timeout, -timerValue, taskId⟩])

/-- Modelled from the spec: the timer manager (`TimerManager::Tick`, not in
the snapshot) delivers an expired timer as a timer-timeout message whose
payload is the timer's absolute deadline tick and its signed value
("Timer message payload: absolute deadline tick and signed value"). -/
def timerMessage (t : Timer) : Message := Message.timerTimeout t.timeout t.value

/-- `kTextboxCursorTimer` (main.cpp:154): the value of the kernel-internal
textbox-cursor blink timer registered by the main task. -/
def kTextboxCursorTimer : Int := 1

/-- `kTimer05sec` (main.cpp:155): `static_cast<int>(kTimerFreq * 0.5)`. -/
def kTimer05sec : Nat := kTimerFreq / 2

/-- `kMainTaskID` (task.hpp, not in the snapshot; upstream value 1). -/
def kMainTaskID : Nat := 1

/-- The timer registered by the main task for the textbox cursor blink
(main.cpp:157): `Timer{kTimer05sec, kTextboxCursorTimer, kMainTaskID}`. -/
def mainTextboxCursorTimer : Timer :=
  ⟨kTimer05sec, kTextboxCursorTimer, kMainTaskID⟩

/-- `fat::DirectoryEntry` as consumed by `syscall::OpenFile`: whether the
entry is a directory, and its file size (fat.hpp, external). -/
structure DirectoryEntry where
  isDirectory : Bool
  size : Nat
deriving DecidableEq, Repr

/-- The `Error::Code` causes distinguished by the `CreateFile` helper
(syscall.cpp:359-371); `success` stands for the default branch. -/
inductive FatErr where
  | isDirectory
  | noSuchEntry
  | noEnoughMemory
  | success
deriving DecidableEq, Repr

/-- The `CreateFile` helper (syscall.cpp:359-371): translates the error cause
of `fat::CreateFile` (external) into an errno value. -/
def CreateFile (res : DirectoryEntry × FatErr) : DirectoryEntry × Nat :=
  match res.2 with
  | FatErr.isDirectory => (res.1, EISDIR)
  | FatErr.noSuchEntry => (res.1, ENOENT)
  | FatErr.noEnoughMemory => (res.1, ENOSPC)
  | FatErr.success => (res.1, 0)

/-- `AllocateFD` (syscall.cpp:345-355): index of the first empty slot of the
task's file table, appending a fresh empty slot when none is free. -/
def AllocateFD (files : List (Option FileDesc)) : Nat × List (Option FileDesc) :=
  match files.findIdx? Option.isNone with
  | some i => (i, files)
  | none => (files.length, files ++ [none])

/-- `syscall::OpenFile` (syscall.cpp:375-407).  `fat::FindFile` and
`fat::CreateFile` are external (`fat.cpp` is not in the snapshot) and are
passed as parameters: `fatFind path = (entry?, post_slash)` and
`fatCreate path = (entry, cause)`. -/
def OpenFile (path : String) (flags : Nat) (task : Task)
    (fatFind : String → Option DirectoryEntry × Bool)
    (fatCreate : String → DirectoryEntry × FatErr) : Result × Task :=
  if path = "@stdin" then
    (⟨0, 0⟩, task)
  else
    let found := fatFind path
    let fileAndErr : Option DirectoryEntry × Nat :=
      match found.1 with
      | none =>
        if flags &&& O_CREAT = 0 then (none, ENOENT)
        else
          let created := CreateFile (fatCreate path)
          if created.2 ≠ 0 then (none, created.2) else (some created.1, 0)
      | some f =>
        if f.isDirectory = false ∧ found.2 then (none, ENOENT) else (some f, 0)
    match fileAndErr with
    | (none, err) => (⟨0, err⟩, task)
    | (some f, _) =>
      let alloc := AllocateFD task.files
      (⟨alloc.1, 0⟩,
        { task with files := alloc.2.set alloc.1 (some ⟨f.size, 0⟩) })

/-- The invalid-descriptor test shared by `syscall::ReadFile` and
`syscall::MapFile` (syscall.cpp:419, 451): negative, at least the file-table
size, or an unopened slot. -/
def invalidFD (fd : Int) (files : List (Option FileDesc)) : Prop :=
  fd < 0 ∨ (files.length : Int) ≤ fd ∨ files.getD fd.toNat none = none

instance (fd : Int) (files : List (Option FileDesc)) :
    Decidable (invalidFD fd files) := by
  unfold invalidFD
  infer_instance

/-- `syscall::ReadFile` (syscall.cpp:410-423).  The actual read
(`fat::FileDescriptor::Read`, external) is passed in as `readImpl`, returning
the byte count and the updated descriptor state.  The inner `none` branch is
unreachable when the descriptor check has passed. -/
def ReadFile (arg1 count : Nat) (task : Task)
    (readImpl : FileDesc → Nat → Nat × FileDesc) : Result × Task :=
  let fd := toInt32 arg1
  if invalidFD fd task.files then
    (⟨0, EBADF⟩, task)
  else
    match task.files.getD fd.toNat none with
    | none => (⟨0, EBADF⟩, task)
    | some f =>
      let r := readImpl f count
      (⟨r.1, 0⟩, { task with files := task.files.set fd.toNat (some r.2) })

/-- 64-bit wrap-around subtraction, for `vaddr_end - *file_size` in
`syscall::MapFile` (syscall.cpp:457). -/
def sub64 (a b : Nat) : Nat :=
  (a + (0x10000000000000000 - b % 0x10000000000000000)) % 0x10000000000000000

/-- `syscall::MapFile` (syscall.cpp:442-461).  Returns the syscall result,
the value written through the `file_size` out-pointer (`none` when the
syscall fails before writing it), and the updated task: the file-map region
end moves down to the 4 KiB-aligned start of the new mapping, which is
appended to the task's file-mapping list. -/
def MapFile (arg1 : Nat) (task : Task) : Result × Option Nat × Task :=
  let fd := toInt32 arg1
  if invalidFD fd task.files then
    (⟨0, EBADF⟩, none, task)
  else
    match task.files.getD fd.toNat none with
    | none => (⟨0, EBADF⟩, none, task)
    | some f =>
      let vaddrEnd := task.fileMapEnd
      let vaddrBegin := sub64 vaddrEnd f.size - sub64 vaddrEnd f.size % 4096
      (⟨vaddrBegin, 0⟩, some f.size,
        { task with
            fileMapEnd := vaddrBegin
            fileMaps := task.fileMaps ++ [⟨fd, vaddrBegin, vaddrEnd⟩] })

/-- `syscall::DemandPages` (syscall.cpp:427-438): returns the previous end of
the demand-paging region and moves the end forward by `4096 * num_pages` in
64-bit arithmetic.  The body touches neither the frame allocator nor any
page table, so the global count of allocated frames is passed through
unchanged. -/
def DemandPages (numPages : Nat) (task : Task) (allocatedFrames : Nat) :
    Result × Task × Nat :=
  let dpEnd := task.dpagingEnd
  (⟨dpEnd, 0⟩,
    { task with dpagingEnd := (dpEnd + 4096 * numPages) % 0x10000000000000000 },
    allocatedFrames)

/-- The sixteen kernel entry points of `g_syscall_table`
(syscall.cpp:471-488), as an enumeration. -/
inductive SyscallFn where
  | LogString
  | PutString
  | Exit
  | OpenWindow
  | WinWriteString
  | WinFillRectangle
  | GetCurrentTick
  | WinRedraw
  | WinDrawLine
  | CloseWindow
  | ReadEvent
  | CreateTimer
  | OpenFile
  | ReadFile
  | DemandPages
  | MapFile
deriving DecidableEq, Repr

/-- `g_syscall_table` (syscall.cpp:471-488) in source order; the syscall
number is the index plus 0x80000000. -/
def g_syscall_table : List SyscallFn :=
  [SyscallFn.LogString, SyscallFn.PutString, SyscallFn.Exit,
   SyscallFn.OpenWindow, SyscallFn.WinWriteString, SyscallFn.WinFillRectangle,
   SyscallFn.GetCurrentTick, SyscallFn.WinRedraw, SyscallFn.WinDrawLine,
   SyscallFn.CloseWindow, SyscallFn.ReadEvent, SyscallFn.CreateTimer,
   SyscallFn.OpenFile, SyscallFn.ReadFile, SyscallFn.DemandPages,
   SyscallFn.MapFile]

/-- Number of entries of the interrupt descriptor table `g_idt`
(interrupt.hpp:60: `std::array<InterruptDescriptor, 256>`). -/
def kIDTEntries : Nat := 256

namespace InterruptVector

/-- `InterruptVector::kXHCI` (interrupt.hpp:43): the device (xHCI/USB)
interrupt vector. -/
def kXHCI : Nat := 0x40

/-- `InterruptVector::kLAPICTimer` (interrupt.hpp:44): the LAPIC timer
interrupt vector. -/
def kLAPICTimer : Nat := 0x41

end InterruptVector

/-- `kISTForTimer` (interrupt.hpp:79): the interrupt-stack-table index
reserved for the timer interrupt. -/
def kISTForTimer : Nat := 1

/-- `InterruptDescriptor` (interrupt.hpp:29-37): one 16-byte IDT entry,
encoding the handler offset (split into low/middle/high parts), the segment
selector and the attribute word. -/
structure InterruptDescriptor where
  offsetLow : Nat
  segmentSelector : Nat
  attr : Nat
  offsetMiddle : Nat
  offsetHigh : Nat
  reserved : Nat
deriving DecidableEq, Repr

/-- `MakeIDTAttr` (interrupt.hpp:62-73), flattened to the 16-bit attribute
word laid out by `InterruptDescriptorAttribute` (interrupt.hpp:12-26):
bits 0-2 the interrupt-stack-table index, bits 8-11 the gate type, bits 13-14
the descriptor privilege level, bit 15 the present flag.  Bit-field
assignment truncates each stored value to its field width, hence the
moduli (256 = 2^8, 8192 = 2^13, 32768 = 2^15). -/
def MakeIDTAttr (type dpl : Nat) (present : Bool) (ist : Nat) : Nat :=
  ist % 8 + 256 * (type % 16) + 8192 * (dpl % 4) +
    32768 * (if present then 1 else 0)

/-- The `interrupt_stack_table` field (bits 0-2) of an attribute word. -/
def attrIST (a : Nat) : Nat := a % 8

/-- The `type` field (bits 8-11) of an attribute word. -/
def attrType (a : Nat) : Nat := a / 256 % 16

/-- The `descriptor_privilege_level` field (bits 13-14) of an attribute
word. -/
def attrDPL (a : Nat) : Nat := a / 8192 % 4

/-- The `present` field (bit 15) of an attribute word. -/
def attrPresent (a : Nat) : Nat := a / 32768 % 2

/-- `PageMapEntry::SetPointer` (paging.hpp:112-114) on the raw 64-bit entry
word: stores `p >> 12` into the 40-bit `addr` bit-field (bits 12-51,
truncated to 2^40 = 0x10000000000), leaving the low 12 flag bits and the top
12 bits (from 2^52 = 0x10000000000000 up) untouched. -/
def SetPointer (data p : Nat) : Nat :=
  data % 4096 + 4096 * (p / 4096 % 0x10000000000) +
    0x10000000000000 * (data / 0x10000000000000)

/-- `PageMapEntry::Pointer` (paging.hpp:107-109): `bits.addr << 12`. -/
def Pointer (data : Nat) : Nat := 4096 * (data / 4096 % 0x10000000000)

/-! Helper lemmas shared by the claim theorems. -/

theorem toInt32_small (v : Nat) (h : v < 0x80000000) : toInt32 v = (v : Int) := by
  have hmod : v % 0x100000000 = v := Nat.mod_eq_of_lt (by omega)
  unfold toInt32
  rw [hmod, if_pos h]

theorem createTimer_pos (arg1 v arg3 tick tid : Nat) (timers : List Timer)
    (h1 : 0 < v) (h2 : v < 0x80000000) :
    CreateTimer arg1 v arg3 tick tid timers =
      (⟨createTimerTimeout arg1 arg3 tick * 1000 % 0x10000000000000000 / kTimerFreq, 0⟩,
        timers ++ [⟨createTimerTimeout arg1 arg3 tick, -(v : Int), tid⟩]) := by
  have htv : toInt32 v = (v : Int) := toInt32_small v h2
  have hpos : ¬ (v : Int) ≤ 0 := not_le.mpr (by exact_mod_cast h1)
  simp only [CreateTimer, htv]
  rw [if_neg hpos]

theorem convertMessage_timer (timeout : Nat) (value : Int) :
    convertMessage (Message.timerTimeout timeout value) =
      if value < 0 then some (AppEvent.timerTimeout timeout (-value)) else none := rfl

/-- C7: the system-call dispatch table is a fixed array of exactly 16
entries, indices 0x00 through 0x0f bound in order to LogString, PutString,
Exit, OpenWindow, WinWriteString, WinFillRectangle, GetCurrentTick,
WinRedraw, WinDrawLine, CloseWindow, ReadEvent, CreateTimer, OpenFile,
ReadFile, DemandPages and MapFile — i.e. logging at 0x00, terminal string
output at 0x01, process exit at 0x02, window open/draw/close operations at
0x03-0x05 and 0x07-0x09, the current-tick query at 0x06, event read at 0x0a,
timer creation at 0x0b, file open at 0x0c, file read at 0x0d, the
demand-paging extension at 0x0e and file-mapping registration at 0x0f. -/
theorem syscall_table_layout :
    g_syscall_table.length = 16 ∧
    g_syscall_table.get? 0x00 = some SyscallFn.LogString ∧
    g_syscall_table.get? 0x01 = some SyscallFn.PutString ∧
    g_syscall_table.get? 0x02 = some SyscallFn.Exit ∧
    g_syscall_table.get? 0x03 = some SyscallFn.OpenWindow ∧
    g_syscall_table.get? 0x04 = some SyscallFn.WinWriteString ∧
    g_syscall_table.get? 0x05 = some SyscallFn.WinFillRectangle ∧
    g_syscall_table.get? 0x06 = some SyscallFn.GetCurrentTick ∧
    g_syscall_table.get? 0x07 = some SyscallFn.WinRedraw ∧
    g_syscall_table.get? 0x08 = some SyscallFn.WinDrawLine ∧
    g_syscall_table.get? 0x09 = some SyscallFn.CloseWindow ∧
    g_syscall_table.get? 0x0a = some SyscallFn.ReadEvent ∧
    g_syscall_table.get? 0x0b = some SyscallFn.CreateTimer ∧
    g_syscall_table.get? 0x0c = some SyscallFn.OpenFile ∧
    g_syscall_table.get? 0x0d = some SyscallFn.ReadFile ∧
    g_syscall_table.get? 0x0e = some SyscallFn.DemandPages ∧
    g_syscall_table.get? 0x0f = some SyscallFn.MapFile := by
  decide

/-- C8: the interrupt descriptor table has exactly 256 entries; vector 0x40
is the device (xHCI/USB) interrupt and 0x41 the LAPIC timer interrupt;
interrupt-stack-table index 1 is the timer's dedicated stack; and
`MakeIDTAttr` places the IST index at bits 0-2, the gate type at bits 8-11,
the privilege level at bits 13-14 and the present flag at bit 15, each
truncated to its field width, with IST index 0 as the default. -/
theorem idt_layout :
    kIDTEntries = 256 ∧
    InterruptVector.kXHCI = 0x40 ∧
    InterruptVector.kLAPICTimer = 0x41 ∧
    kISTForTimer = 1 ∧
    (∀ t d p i,
      attrIST (MakeIDTAttr t d p i) = i % 8 ∧
      attrType (MakeIDTAttr t d p i) = t % 16 ∧
      attrDPL (MakeIDTAttr t d p i) = d % 4 ∧
      attrPresent (MakeIDTAttr t d p i) = if p then 1 else 0) ∧
    (∀ t d, attrIST (MakeIDTAttr t d true 0) = 0) := by
  refine ⟨rfl, rfl, rfl, rfl, ?_, ?_⟩
  · intro t d p i
    cases p <;>
      simp [MakeIDTAttr, attrIST, attrType, attrDPL, attrPresent] <;>
      omega
  · intro t d
    simp [MakeIDTAttr, attrIST]
    omega

/-- C9: for a 4 KiB-aligned pointer `p` with the bits above bit 51 clear,
`SetPointer` followed by `Pointer` returns exactly `p`; `SetPointer` never
alters the low 12 flag bits of the entry; and for an unaligned pointer the
low 12 address bits are silently dropped (the stored address is
`4096 * (p / 4096)`). -/
theorem pageMapEntry_pointer_roundtrip (data p : Nat)
    (hp : p < 0x10000000000000) :
    (p % 4096 = 0 → Pointer (SetPointer data p) = p) ∧
    SetPointer data p % 4096 = data % 4096 ∧
    Pointer (SetPointer data p) = 4096 * (p / 4096) := by
  unfold Pointer SetPointer
  omega

/-- Witness for C9 at the concrete entry word 0xfff (all twelve flag bits
set) and the aligned pointer 0x2000. -/
theorem pageMapEntry_pointer_roundtrip_witness :
    Pointer (SetPointer 0xfff 0x2000) = 0x2000 ∧
    SetPointer 0xfff 0x2000 % 4096 = 0xfff % 4096 :=
  ⟨(pageMapEntry_pointer_roundtrip 0xfff 0x2000 (by norm_num)).1 (by norm_num),
    (pageMapEntry_pointer_roundtrip 0xfff 0x2000 (by norm_num)).2.1⟩

/-- C10: `OpenFile` invoked with the exact path "@stdin" returns primary
value 0 (file descriptor 0) and error code 0 for every flag combination and
every task state, without consulting the filesystem search or creation
functions and leaving the task's file table untouched. -/
theorem openFile_stdin (flags : Nat) (task : Task)
    (fatFind : String → Option DirectoryEntry × Bool)
    (fatCreate : String → DirectoryEntry × FatErr) :
    OpenFile "@stdin" flags task fatFind fatCreate = (⟨0, 0⟩, task) := rfl

/-- C6: `DemandPages` returns the previous end of the calling task's
demand-paging region as its primary value with error code 0, advances that
end by exactly `4096 * n` bytes (in the absence of 64-bit wrap-around),
leaves every other task field unchanged, and allocates no physical frame. -/
theorem demandPages_spec (n : Nat) (task : Task) (frames : Nat)
    (hov : task.dpagingEnd + 4096 * n < 0x10000000000000000) :
    (DemandPages n task frames).1 = ⟨task.dpagingEnd, 0⟩ ∧
    (DemandPages n task frames).2.1.dpagingEnd = task.dpagingEnd + 4096 * n ∧
    (DemandPages n task frames).2.1.files = task.files ∧
    (DemandPages n task frames).2.1.fileMaps = task.fileMaps ∧
    (DemandPages n task frames).2.1.fileMapEnd = task.fileMapEnd ∧
    (DemandPages n task frames).2.2 = frames := by
  unfold DemandPages
  refine ⟨rfl, ?_, rfl, rfl, rfl, rfl⟩
  simpa using Nat.mod_eq_of_lt hov

/-- Witness for C6: a task whose demand-paging region ends at 0x1000, grown
by three pages. -/
theorem demandPages_spec_witness :
    (DemandPages 3 ⟨[], [], 0, 0x1000⟩ 7).1 = ⟨0x1000, 0⟩ ∧
    (DemandPages 3 ⟨[], [], 0, 0x1000⟩ 7).2.1.dpagingEnd = 0x1000 + 4096 * 3 :=
  ⟨(demandPages_spec 3 ⟨[], [], 0, 0x1000⟩ 7 (by norm_num)).1,
    (demandPages_spec 3 ⟨[], [], 0, 0x1000⟩ 7 (by norm_num)).2.1⟩

/-- C2 counterexample: the claim's sign labels are inverted on the code.
The kernel-internal textbox-cursor timer registered by the main task carries
the positive value 1 (not a negative one), `CreateTimer` registers the
application's requested value 1 as the negative value -1, and the event
dispatcher delivers the negative-valued timeout to the application (treating
it as application-created) while suppressing the positive kernel one — so a
negative value denotes an application timer, not a kernel-owned one. -/
theorem timer_sign_labels_counterexample :
    mainTextboxCursorTimer.value = 1 ∧
    ¬ mainTextboxCursorTimer.value < 0 ∧
    (CreateTimer 1 1 0 0 3 []).2 = [⟨0, -1, 3⟩] ∧
    convertMessage (timerMessage ⟨50, -1, 3⟩) =
      some (AppEvent.timerTimeout 50 1) ∧
    convertMessage (timerMessage mainTextboxCursorTimer) = none := by
  decide

/-- C2 (amended): in the timer queue the sign convention is the reverse of
the claim's labels: a negative value denotes an application-created timer and
a positive value a kernel-owned one.  Every timer registered through the
application-facing `CreateTimer` carries a negative value (the requested
positive value, negated), the kernel-internal textbox-cursor registration of
the main task carries a positive value, and the dispatcher classifies a
timeout message as application-owned — delivering it — exactly when its
value is negative. -/
theorem timer_sign_convention (arg1 v arg3 tick tid : Nat) (timers : List Timer)
    (h1 : 0 < v) (h2 : v < 0x80000000) :
    (∃ t, (CreateTimer arg1 v arg3 tick tid timers).2 = timers ++ [t] ∧
      t.value < 0) ∧
    0 < mainTextboxCursorTimer.value ∧
    (∀ t : Timer, (convertMessage (timerMessage t)).isSome ↔ t.value < 0) := by
  refine ⟨?_, by decide, ?_⟩
  · refine ⟨⟨createTimerTimeout arg1 arg3 tick, -(v : Int), tid⟩, ?_, ?_⟩
    · rw [createTimer_pos arg1 v arg3 tick tid timers h1 h2]
    · simp only []
      omega
  · intro t
    rw [timerMessage, convertMessage_timer]
    by_cases h : t.value < 0
    · simp [h]
    · simp [h]

/-- Witness for C2 (amended): the application value 1 on an empty timer
queue. -/
theorem timer_sign_convention_witness :
    ∃ t, (CreateTimer 0 1 0 0 1 []).2 = [] ++ [t] ∧ t.value < 0 :=
  (timer_sign_convention 0 1 0 0 1 [] (by norm_num) (by norm_num)).1

/-- C4: for an application timer created through `CreateTimer` with a
requested value v > 0 representable as an int, the negation applied at
creation and the negation applied by the event dispatcher before delivery
compose to the identity: the timer is registered with value -v and the
timer-timeout event delivered to the application through `ReadEvent` carries
value exactly v. -/
theorem createTimer_delivery_roundtrip (arg1 v arg3 tick tid buf : Nat)
    (timers : List Timer) (h1 : 0 < v) (h2 : v < 0x80000000)
    (hbuf : 0x8000000000000000 ≤ buf) :
    ∃ t, (CreateTimer arg1 v arg3 tick tid timers).2 = timers ++ [t] ∧
      t.value = -(v : Int) ∧
      ReadEvent buf 1 [timerMessage t] =
        (⟨1, 0⟩, [AppEvent.timerTimeout t.timeout (v : Int)], []) := by
  refine ⟨⟨createTimerTimeout arg1 arg3 tick, -(v : Int), tid⟩, ?_, rfl, ?_⟩
  · rw [createTimer_pos arg1 v arg3 tick tid timers h1 h2]
  · have hneg : -(v : Int) < 0 := by omega
    unfold ReadEvent
    rw [if_neg (not_lt.mpr hbuf)]
    simp [readEventLoop, timerMessage, convertMessage_timer, hneg]

/-- Witness for C4: requested value 7, delivered back as 7. -/
theorem createTimer_delivery_roundtrip_witness :
    ∃ t, (CreateTimer 0 7 0 0 1 []).2 = [] ++ [t] ∧
      t.value = -((7 : Nat) : Int) ∧
      ReadEvent 0x8000000000000000 1 [timerMessage t] =
        (⟨1, 0⟩, [AppEvent.timerTimeout t.timeout ((7 : Nat) : Int)], []) :=
  createTimer_delivery_roundtrip 0 7 0 0 1 0x8000000000000000 []
    (by norm_num) (by norm_num) (by norm_num)

/-- C3: for `LogString`, `PutString` and `ReadEvent` the argument
validations — log-level membership, the length bound of at most 1024 bytes,
and the pointer-range check rejecting event buffers below the user half
0x8000000000000000 of the address space — are performed before any side
effect: on a validation failure the syscall returns a nonzero error code
(EPERM, E2BIG or EFAULT) with primary value 0 and the kernel log, the task
and write log, and the message queue are unchanged (nothing logged, nothing
written, no message consumed, no event delivered). -/
theorem syscall_validation_no_side_effects
    (lvl : Nat) (s s2 : String) (log : List (Nat × String))
    (fd len : Nat) (task : Task) (writes : List (Nat × String × Nat))
    (buf elen : Nat) (q : List Message) :
    ((lvl ≠ kError ∧ lvl ≠ kWarn ∧ lvl ≠ kInfo ∧ lvl ≠ kDebug) →
      LogString lvl s log = (⟨0, EPERM⟩, log)) ∧
    ((lvl = kError ∨ lvl = kWarn ∨ lvl = kInfo ∨ lvl = kDebug) →
      s.length > 1024 → LogString lvl s log = (⟨0, E2BIG⟩, log)) ∧
    (len > 1024 → PutString fd s2 len task writes = (⟨0, E2BIG⟩, task, writes)) ∧
    (buf < 0x8000000000000000 → ReadEvent buf elen q = (⟨0, EFAULT⟩, [], q)) ∧
    EPERM ≠ 0 ∧ E2BIG ≠ 0 ∧ EFAULT ≠ 0 := by
  refine ⟨?_, ?_, ?_, ?_, by decide, by decide, by decide⟩
  · intro h
    simp only [LogString]
    rw [if_pos h]
  · intro hv hlen
    have hne : ¬ (lvl ≠ kError ∧ lvl ≠ kWarn ∧ lvl ≠ kInfo ∧ lvl ≠ kDebug) := by
      tauto
    simp only [LogString]
    rw [if_neg hne, if_pos hlen]
  · intro hlen
    simp only [PutString]
    rw [if_pos hlen]
  · intro hbuf
    simp only [ReadEvent]
    rw [if_pos hbuf]

/-- Witness for C3: an invalid log level, an oversized terminal write, and an
event buffer in the kernel half of the address space. -/
theorem syscall_validation_no_side_effects_witness :
    LogString 0 "boot" [] = (⟨0, EPERM⟩, []) ∧
    PutString 0 "x" 1025 ⟨[], [], 0, 0⟩ [] = (⟨0, E2BIG⟩, ⟨[], [], 0, 0⟩, []) ∧
    ReadEvent 0 4 [Message.windowClose] = (⟨0, EFAULT⟩, [], [Message.windowClose]) := by
  refine ⟨?_, ?_, ?_⟩
  · exact (syscall_validation_no_side_effects 0 "boot" "x" [] 0 1025
      ⟨[], [], 0, 0⟩ [] 0 4 [Message.windowClose]).1 (by decide)
  · exact (syscall_validation_no_side_effects 0 "boot" "x" [] 0 1025
      ⟨[], [], 0, 0⟩ [] 0 4 [Message.windowClose]).2.2.1 (by decide)
  · exact (syscall_validation_no_side_effects 0 "boot" "x" [] 0 1025
      ⟨[], [], 0, 0⟩ [] 0 4 [Message.windowClose]).2.2.2.1 (by decide)

/-- C1 counterexample: `CloseWindow` on a nonexistent layer id (`CloseLayer`
reports `kNoSuchEntry`) returns secondary error code 0 while placing `EBADF`
in the primary value slot — this failure is not reported through a nonzero
secondary error code, contrary to the claim. -/
theorem closeWindow_error_in_value_slot :
    (CloseWindow ErrCause.noSuchEntry).error = 0 ∧
    (CloseWindow ErrCause.noSuchEntry).value = EBADF ∧
    EBADF ≠ 0 := by
  decide

/-- C1 (amended): every syscall returns a two-part result (primary value,
secondary error code); the validation failures of `LogString`, `PutString`
and `ReadEvent` are reported through a nonzero secondary error code with
primary value 0, but `CloseWindow` never sets a nonzero error code: on a
nonexistent layer id it reports its failure as `EBADF` in the primary value
slot with secondary error code 0, and returns value 0 and error 0
otherwise. -/
theorem syscall_error_reporting (lvl : Nat) (s s2 : String)
    (log : List (Nat × String)) (fd len : Nat) (task : Task)
    (writes : List (Nat × String × Nat)) (buf elen : Nat) (q : List Message)
    (hlvl : lvl ≠ kError ∧ lvl ≠ kWarn ∧ lvl ≠ kInfo ∧ lvl ≠ kDebug)
    (hlen : len > 1024) (hbuf : buf < 0x8000000000000000) :
    (LogString lvl s log).1 = ⟨0, EPERM⟩ ∧
    (PutString fd s2 len task writes).1 = ⟨0, E2BIG⟩ ∧
    (ReadEvent buf elen q).1 = ⟨0, EFAULT⟩ ∧
    (∀ c, (CloseWindow c).error = 0) ∧
    CloseWindow ErrCause.noSuchEntry = ⟨EBADF, 0⟩ ∧
    CloseWindow ErrCause.success = ⟨0, 0⟩ ∧
    CloseWindow ErrCause.other = ⟨0, 0⟩ ∧
    EPERM ≠ 0 ∧ E2BIG ≠ 0 ∧ EFAULT ≠ 0 := by
  refine ⟨?_, ?_, ?_, ?_, by decide, by decide, by decide,
    by decide, by decide, by decide⟩
  · simp only [LogString]
    rw [if_pos hlvl]
  · simp only [PutString]
    rw [if_pos hlen]
  · simp only [ReadEvent]
    rw [if_pos hbuf]
  · intro c
    cases c <;> decide

/-- Witness for C1 (amended): log level 9 and a 4096-byte terminal write. -/
theorem syscall_error_reporting_witness :
    (LogString 9 "m" []).1 = ⟨0, EPERM⟩ ∧
    (PutString 2 "y" 4096 ⟨[], [], 0, 0⟩ []).1 = ⟨0, E2BIG⟩ :=
  ⟨(syscall_error_reporting 9 "m" "y" [] 2 4096 ⟨[], [], 0, 0⟩ [] 5 0 []
      (by decide) (by decide) (by decide)).1,
    (syscall_error_reporting 9 "m" "y" [] 2 4096 ⟨[], [], 0, 0⟩ [] 5 0 []
      (by decide) (by decide) (by decide)).2.1⟩

/-- C5 counterexample: with an empty file table every descriptor is invalid,
yet `PutString` called with such a bad descriptor and an oversized length
returns `E2BIG`, not `EBADF`: its length check precedes its descriptor
check. -/
theorem putString_badfd_not_ebadf :
    PutString 0 "z" 1025 ⟨[], [], 0, 0⟩ [] = (⟨0, E2BIG⟩, ⟨[], [], 0, 0⟩, []) ∧
    ([] : List (Option FileDesc)).length ≤ 0 ∧
    E2BIG ≠ EBADF :=
  ⟨rfl, by decide, by decide⟩

/-- C5 (amended): an invalid file descriptor — negative, at least the size of
the calling task's file table, or an unopened slot — makes `ReadFile` and
`MapFile` return `EBADF` with primary value 0 and leave the task (file
table, file-mapping list, region bounds) unchanged; `PutString` does the
same provided its length argument passed the preceding length check
(len ≤ 1024), while with an oversized length it instead fails earlier with
`E2BIG`, likewise with value 0 and no state change. -/
theorem badfd_rejected (arg1 count fdn len : Nat) (s : String) (task : Task)
    (writes : List (Nat × String × Nat))
    (readImpl : FileDesc → Nat → Nat × FileDesc)
    (hfd : invalidFD (toInt32 arg1) task.files)
    (hfdn : task.files.length ≤ fdn ∨ task.files.getD fdn none = none)
    (hlen : len ≤ 1024) :
    ReadFile arg1 count task readImpl = (⟨0, EBADF⟩, task) ∧
    MapFile arg1 task = (⟨0, EBADF⟩, none, task) ∧
    PutString fdn s len task writes = (⟨0, EBADF⟩, task, writes) := by
  refine ⟨?_, ?_, ?_⟩
  · simp only [ReadFile]
    rw [if_pos hfd]
  · simp only [MapFile]
    rw [if_pos hfd]
  · simp only [PutString]
    rw [if_neg (by omega : ¬ len > 1024), if_pos hfdn]

/-- Witness for C5 (amended): the argument 0xffffffff narrows to the int -1,
an invalid descriptor even for a task with one open file; descriptor 5 is
past the end of that table. -/
theorem badfd_rejected_witness :
    ReadFile 0xffffffff 8 ⟨[some ⟨4, 0⟩], [], 0x1000, 0⟩ (fun f _ => (0, f)) =
      (⟨0, EBADF⟩, ⟨[some ⟨4, 0⟩], [], 0x1000, 0⟩) ∧
    MapFile 0xffffffff ⟨[some ⟨4, 0⟩], [], 0x1000, 0⟩ =
      (⟨0, EBADF⟩, none, ⟨[some ⟨4, 0⟩], [], 0x1000, 0⟩) ∧
    PutString 5 "w" 3 ⟨[some ⟨4, 0⟩], [], 0x1000, 0⟩ [] =
      (⟨0, EBADF⟩, ⟨[some ⟨4, 0⟩], [], 0x1000, 0⟩, []) :=
  badfd_rejected 0xffffffff 8 5 3 "w" ⟨[some ⟨4, 0⟩], [], 0x1000, 0⟩ []
    (fun f _ => (0, f)) (by decide) (by decide) (by decide)

end MikanOS
